import Mathlib

/-!
Shallow embedding of the `verplant` shared game-rules library
(`src/shared/src/lib.rs`) and proofs about it.

Rust `HashMap`s are modelled as association lists with observation through
`lookupA`; `HashMap::insert` replaces the value stored at an existing key and
otherwise appends, which `insertA` mirrors up to `lookupA`-observational
equivalence.  `Vec` is modelled as `List` with `pop` acting on the last
element.  `u8`/`u32`/`u64` arithmetic is modelled on `Nat` with explicit
`% 2^64` where the Rust code relies on wrapping (the shuffle LCG); the one
unsigned subtraction (`count_empty_stations`) uses truncated `Nat`
subtraction, and theorems that depend on it carry the no-underflow
hypothesis.  `i32` score arithmetic is modelled on `Int`.  `Uuid` player ids
are modelled as `Nat`.  The time-seeded shuffles take the seed as an explicit
parameter.
-/

namespace Verplant

/-- Lookup in an association list: first binding for the key, as
`HashMap::get`. -/
def lookupA {α β : Type} [DecidableEq α] (k : α) : List (α × β) → Option β
  | [] => none
  | (k', v) :: rest => if k' = k then some v else lookupA k rest

/-- `HashMap::contains_key`. -/
def containsA {α β : Type} [DecidableEq α] (k : α) (l : List (α × β)) : Bool :=
  (lookupA k l).isSome

/-- `HashMap::insert`: replace the binding for an existing key, otherwise
add a new one. -/
def insertA {α β : Type} [DecidableEq α] (k : α) (v : β) : List (α × β) → List (α × β)
  | [] => [(k, v)]
  | (k', v') :: rest => if k' = k then (k, v) :: rest else (k', v') :: insertA k v rest

/-- `enum Card` from src/shared/src/lib.rs. -/
inductive Card where
  | number (n : Nat)
  | six
  | express (n : Nat)
  | transfer
  | freeRide
deriving DecidableEq

/-- `Card::get_value`. -/
def Card.get_value : Card → Option Nat
  | .number n => some n
  | .express n => some n
  | .six => some 6
  | .transfer => none
  | .freeRide => none

/-- `Card::create_deck`: the fixed 16-card deck in construction order. -/
def Card.create_deck : List Card :=
  [.number 1, .number 1, .number 2, .number 2, .number 3, .number 3,
   .number 4, .number 4, .number 5, .number 5,
   .six,
   .express 2, .express 3, .express 4,
   .transfer, .freeRide]

/-- `enum StationMark`. -/
inductive StationMark where
  | cross
  | transferNumber (n : Nat)
deriving DecidableEq

/-- `enum CompletionStatus`. -/
inductive CompletionStatus where
  | firstToComplete (p : Nat)
  | laterCompletion (p : Nat)
  | notCompleted
deriving DecidableEq

/-- `struct Station` (the presentation-only `x`, `y` coordinates and the
`is_transfer_hub` flag are irrelevant to every rule and omitted; `id` is the
key under which the station is stored). -/
structure Station where
  lines : List String
deriving DecidableEq

/-- `struct SubwayLine` (the `color` string and `is_ring` flag are unused by
the rules engine; `id` is the key under which the line is stored). -/
structure SubwayLine where
  stations : List String
  completion_points : Nat × Nat
deriving DecidableEq

/-- `struct SubwayMap` (the `city` tag and `special_stations` are unused by
the rules engine). -/
structure SubwayMap where
  stations : List (String × Station)
  lines : List (String × SubwayLine)
deriving DecidableEq

/-- `struct PlayerSheet` (the `city` tag is unused by the rules engine). -/
structure PlayerSheet where
  player_id : Nat
  train_cars : List (String × List (Option String))
  marked_stations : List (String × StationMark)
  completed_lines : List String
  line_completion_status : List (String × CompletionStatus)
deriving DecidableEq

/-- `enum PlayerAction`. -/
inductive PlayerAction where
  | chooseLine (line_id : String) (car_window_index : Nat)
  | markTransferStation (station_id : String)
  | markFreeRideStation (station_id : String)
  | completeLineAnnouncement (line_id : String)
deriving DecidableEq

/-- The server-to-client variants of `enum GameMessage` that the rules engine
produces. -/
inductive GameMessage where
  | lineCompleted (player_id : Nat) (line_id : String)
  | playerActionResult (success : Bool) (message : String)
deriving DecidableEq

/-- `struct GameState` (the `id`, `city` and `conductor` fields never
influence the rules). -/
structure GameState where
  players : List (Nat × PlayerSheet)
  current_card : Option Card
  deck : List Card
  discard_pile : List Card
  round : Nat
  game_ended : Bool
deriving DecidableEq

/-- `PlayerSheet::new`: four empty windows per line, no marks, no completed
lines, every line `NotCompleted`. -/
def PlayerSheet.new (player_id : Nat) (subway_map : SubwayMap) : PlayerSheet :=
  { player_id := player_id
    train_cars := subway_map.lines.map (fun l => (l.1, [none, none, none, none]))
    marked_stations := []
    completed_lines := []
    line_completion_status := subway_map.lines.map (fun l => (l.1, CompletionStatus.notCompleted)) }

/-- `PlayerSheet::can_use_line`. -/
def PlayerSheet.can_use_line (sheet : PlayerSheet) (line_id : String) : Bool :=
  match lookupA line_id sheet.train_cars with
  | some windows => windows.any (fun w => w.isNone)
  | none => false

/-- The textual window value written by `add_card_to_line`. -/
def card_window_value (card : Card) : String :=
  match card with
  | .transfer => "+"
  | _ =>
    match card.get_value with
    | some v => toString v
    | none => "0"

/-- The left-to-right first-empty-window fill loop inside
`add_card_to_line`. -/
def fillFirstEmpty (v : String) : List (Option String) → List (Option String)
  | [] => []
  | none :: rest => some v :: rest
  | some w :: rest => some w :: fillFirstEmpty v rest

/-- `PlayerSheet::add_card_to_line`. -/
def PlayerSheet.add_card_to_line (sheet : PlayerSheet) (line_id : String) (card : Card) :
    Except String PlayerSheet :=
  if !sheet.can_use_line line_id then
    .error "No empty windows available for this line"
  else
    match lookupA line_id sheet.train_cars with
    | some windows =>
      if windows.any (fun w => w.isNone) then
        let tc := insertA line_id (fillFirstEmpty (card_window_value card) windows)
          sheet.train_cars
        .ok { sheet with train_cars := tc }
      else .error "Could not add card to line"
    | none => .error "Could not add card to line"

/-- `PlayerSheet::find_next_empty_station`: first station of the line not yet
marked. -/
def PlayerSheet.find_next_empty_station (sheet : PlayerSheet) (line_id : String)
    (subway_map : SubwayMap) : Except String (Option String) :=
  match lookupA line_id subway_map.lines with
  | none => .error "Line not found"
  | some line => .ok (line.stations.find? (fun s => !containsA s sheet.marked_stations))

/-- The scan loop of `find_stations_to_mark`: consume `value` marks walking
the station list; an already-marked station stops a regular scan and is
skipped by an express scan. -/
def findStationsAux (marked : List (String × StationMark)) (is_express : Bool) :
    List String → Nat → List String
  | _, 0 => []
  | [], _ => []
  | s :: rest, v + 1 =>
    if containsA s marked then
      if is_express then findStationsAux marked is_express rest (v + 1) else []
    else s :: findStationsAux marked is_express rest v

/-- `PlayerSheet::find_stations_to_mark`. -/
def PlayerSheet.find_stations_to_mark (sheet : PlayerSheet) (line_id : String) (value : Nat)
    (is_express : Bool) (subway_map : SubwayMap) : Except String (List String) :=
  match lookupA line_id subway_map.lines with
  | none => .error "Line not found"
  | some line => .ok (findStationsAux sheet.marked_stations is_express line.stations value)

/-- `PlayerSheet::mark_stations_from_line`.  Returns the list of newly marked
station ids together with the updated sheet. -/
def PlayerSheet.mark_stations_from_line (sheet : PlayerSheet) (line_id : String) (card : Card)
    (subway_map : SubwayMap) : Except String (List String × PlayerSheet) :=
  if (lookupA line_id subway_map.lines).isNone then .error "Line not found"
  else
    match card with
    | .freeRide => .ok ([], sheet)
    | .transfer =>
      match sheet.find_next_empty_station line_id subway_map with
      | .error e => .error e
      | .ok none => .ok ([], sheet)
      | .ok (some station_id) =>
        match lookupA station_id subway_map.stations with
        | none => .error "Station not found"
        | some station =>
          let connection_count := station.lines.length % 256
          let ms := insertA station_id (StationMark.transferNumber connection_count)
            sheet.marked_stations
          .ok ([station_id], { sheet with marked_stations := ms })
    | _ =>
      let value := card.get_value.getD 0
      let is_express := match card with | .express _ => true | _ => false
      match sheet.find_stations_to_mark line_id value is_express subway_map with
      | .error e => .error e
      | .ok stations_to_mark =>
        let ms := stations_to_mark.foldl (fun m s => insertA s StationMark.cross m)
          sheet.marked_stations
        .ok (stations_to_mark, { sheet with marked_stations := ms })

/-- `PlayerSheet::check_line_completion`.  The Rust code `unwrap`s the line
lookup and panics when the line is missing; that panic is the `none` case. -/
def PlayerSheet.check_line_completion (sheet : PlayerSheet) (line_id : String)
    (subway_map : SubwayMap) : Option (Bool × PlayerSheet) :=
  match lookupA line_id subway_map.lines with
  | none => none
  | some line =>
    let all_marked := line.stations.all (fun s => containsA s sheet.marked_stations)
    if all_marked && !(sheet.completed_lines.contains line_id) then
      some (true, { sheet with completed_lines := sheet.completed_lines ++ [line_id] })
    else
      some (false, sheet)

/-- `PlayerSheet::count_empty_stations`.  The Rust `u32` subtraction panics on
underflow; `Nat` subtraction truncates instead, and theorems depending on the
value carry the no-underflow hypothesis. -/
def PlayerSheet.count_empty_stations (sheet : PlayerSheet) (subway_map : SubwayMap) : Nat :=
  let total_stations := subway_map.lines.foldl (fun acc l => acc + l.2.stations.length) 0
  total_stations - sheet.marked_stations.length

/-- `PlayerSheet::calculate_score`. -/
def PlayerSheet.calculate_score (sheet : PlayerSheet) (subway_map : SubwayMap) : Int :=
  let score1 : Int := sheet.completed_lines.foldl (fun score line_id =>
    match lookupA line_id sheet.line_completion_status with
    | some (.firstToComplete points) => score + points
    | some (.laterCompletion points) => score + points
    | _ => score) 0
  let score2 : Int := sheet.marked_stations.foldl (fun score entry =>
    match entry.2 with
    | .transferNumber connections => score + (connections : Int) * 2
    | _ => score) score1
  score2 - ((sheet.count_empty_stations subway_map / 2 : Nat) : Int)

/-- One step of the linear-congruential generator in `shuffle_deck`
(`wrapping_mul`/`wrapping_add` on `u64`). -/
def lcgNext (s : Nat) : Nat := (s * 1103515245 + 12345) % 2 ^ 64

/-- `<[T]>::swap` as used by the shuffle (indices always in bounds there). -/
def swapL {α : Type} (l : List α) (i j : Nat) : List α :=
  match l.get? i, l.get? j with
  | some a, some b => (l.set i b).set j a
  | _, _ => l

/-- The Fisher–Yates loop of `shuffle_deck`, iterating the index from `i`
down to `1` while threading the LCG state. -/
def shuffleIter {α : Type} : List α → Nat → Nat → List α
  | l, _, 0 => l
  | l, s, i + 1 =>
    let s' := lcgNext s
    shuffleIter (swapL l (i + 1) (s' % (i + 2))) s' i

/-- `GameState::shuffle_deck`. -/
def GameState.shuffle_deck (deck : List Card) (seed : Nat) : List Card :=
  shuffleIter deck seed (deck.length - 1)

/-- `Vec::pop`: remove and return the last element. -/
def popV {α : Type} (l : List α) : Option α × List α :=
  match l.getLast? with
  | none => (none, l)
  | some a => (some a, l.dropLast)

/-- `GameState::draw_card`.  The fresh system-time shuffle seed is an explicit
parameter. -/
def GameState.draw_card (g : GameState) (seed : Nat) : Option Card × GameState :=
  match popV g.deck with
  | (some card, deck') => (some card, { g with deck := deck' })
  | (none, _) =>
    if g.discard_pile.isEmpty then (none, g)
    else
      let deck2 := GameState.shuffle_deck (g.deck ++ g.discard_pile) seed
      match popV deck2 with
      | (some card, deck') => (some card, { g with deck := deck', discard_pile := [] })
      | (none, deck') => (none, { g with deck := deck', discard_pile := [] })

/-- `GameState::reveal_card`. -/
def GameState.reveal_card (g : GameState) (seed : Nat) : Option Card × GameState :=
  match g.draw_card seed with
  | (some card, g') => (some card, { g' with current_card := some card })
  | (none, g') => (none, g')

/-- `GameState::handle_card_six`: move the discard pile (and the current card,
when still present) back into the deck and reshuffle. -/
def GameState.handle_card_six (g : GameState) (seed : Nat) : GameState :=
  let deck1 := g.deck ++ g.discard_pile
  let deck2 :=
    match g.current_card with
    | some current => deck1 ++ [current]
    | none => deck1
  { g with deck := GameState.shuffle_deck deck2 seed,
           discard_pile := [],
           current_card := none }

/-- `GameState::check_game_end`: every window of every line of every player is
filled. -/
def GameState.check_game_end (g : GameState) : Bool :=
  g.players.all (fun p => p.2.train_cars.all (fun tc => tc.2.all (fun w => w.isSome)))

/-- `GameState::next_round`.  Note the Rust code `take`s the current card into
a local *before* calling `handle_card_six`, so on a Six the helper runs on a
state whose `current_card` is already `None`. -/
def GameState.next_round (g : GameState) (seed : Nat) : GameState :=
  let g1 := { g with round := g.round + 1 }
  let g2 :=
    match g1.current_card with
    | some card =>
      let g1t := { g1 with current_card := none }
      match card with
      | .six => g1t.handle_card_six seed
      | _ => { g1t with discard_pile := g1t.discard_pile ++ [card] }
    | none => g1
  if g2.check_game_end then { g2 with game_ended := true } else g2

/-- The success message of the `ChooseLine` arm. -/
def markedMessage (n : Nat) : String := s!"Marked {n} stations"

/-- The success message of the `MarkTransferStation` arm. -/
def transferMessage (n : Nat) : String := s!"Marked transfer station with {n} connections"

/-- `GameState::process_player_action`.  The second component is the state the
Rust code leaves behind, including the partial mutation when the second step
of `ChooseLine` fails after `add_card_to_line` succeeded. -/
def GameState.process_player_action (g : GameState) (player_id : Nat) (action : PlayerAction)
    (subway_map : SubwayMap) : Except String (List GameMessage) × GameState :=
  match g.current_card with
  | none => (.error "No card revealed", g)
  | some current_card =>
    match action with
    | .chooseLine line_id _ =>
      let others_completed := g.players.any (fun p =>
        p.2.player_id != player_id && p.2.completed_lines.contains line_id)
      match lookupA player_id g.players with
      | none => (.error "Player not found", g)
      | some player =>
        match player.add_card_to_line line_id current_card with
        | .error e => (.error e, g)
        | .ok player1 =>
          match player1.mark_stations_from_line line_id current_card subway_map with
          | .error e => (.error e, { g with players := insertA player_id player1 g.players })
          | .ok (marked_stations, player2) =>
            match player2.check_line_completion line_id subway_map with
            | none =>
              -- the Rust code `unwrap`s the line lookup here; unreachable since
              -- mark_stations_from_line already found the line
              (.error "Line not found", { g with players := insertA player_id player2 g.players })
            | some (line_completed, player3) =>
              let player4 :=
                if line_completed then
                  match lookupA line_id subway_map.lines with
                  | some line =>
                    if !others_completed then
                      let st := insertA line_id
                        (CompletionStatus.firstToComplete line.completion_points.1)
                        player3.line_completion_status
                      { player3 with line_completion_status := st }
                    else
                      let st := insertA line_id
                        (CompletionStatus.laterCompletion line.completion_points.2)
                        player3.line_completion_status
                      { player3 with line_completion_status := st }
                  | none => player3
                else player3
              let msgs :=
                (if line_completed then [GameMessage.lineCompleted player_id line_id] else []) ++
                [GameMessage.playerActionResult true (markedMessage marked_stations.length)]
              (.ok msgs, { g with players := insertA player_id player4 g.players })
    | .markTransferStation station_id =>
      match current_card with
      | .transfer =>
        match lookupA station_id subway_map.stations with
        | none => (.error "Station not found", g)
        | some station =>
          let connection_count := station.lines.length % 256
          match lookupA player_id g.players with
          | none => (.error "Player not found", g)
          | some player =>
            let ms := insertA station_id (StationMark.transferNumber connection_count)
              player.marked_stations
            let player' := { player with marked_stations := ms }
            (.ok [GameMessage.playerActionResult true (transferMessage connection_count)],
             { g with players := insertA player_id player' g.players })
      | _ => (.error "Can only mark transfer station with transfer card", g)
    | .markFreeRideStation station_id =>
      match current_card with
      | .freeRide =>
        match lookupA player_id g.players with
        | none => (.error "Player not found", g)
        | some player =>
          if containsA station_id player.marked_stations then
            (.error "Station already marked", g)
          else
            let ms := insertA station_id StationMark.cross player.marked_stations
            let player' := { player with marked_stations := ms }
            (.ok [GameMessage.playerActionResult true "Marked free ride station"],
             { g with players := insertA player_id player' g.players })
      | _ => (.error "Can only mark free ride station with free ride card", g)
    | .completeLineAnnouncement line_id =>
      (.ok [GameMessage.lineCompleted player_id line_id], g)

/-- `GameState::calculate_final_scores`. -/
def GameState.calculate_final_scores (g : GameState) (subway_map : SubwayMap) :
    List (Nat × Int) :=
  g.players.map (fun p => (p.1, p.2.calculate_score subway_map))

/-- `GameState::add_player`. -/
def GameState.add_player (g : GameState) (player_id : Nat) (subway_map : SubwayMap) : GameState :=
  { g with players := insertA player_id (PlayerSheet.new player_id subway_map) g.players }

/-- |deck| + |discard_pile| + (1 if a card is revealed). -/
def GameState.cardTotal (g : GameState) : Nat :=
  g.deck.length + g.discard_pile.length + (if g.current_card.isSome then 1 else 0)

/-- A game-lifetime operation, for stating invariants over arbitrary
interleavings: a direct `mark_stations_from_line` on one player's sheet, or a
`process_player_action` dispatch. -/
inductive Op where
  | markFromLine (player_id : Nat) (line_id : String) (card : Card)
  | act (player_id : Nat) (action : PlayerAction)

/-- Apply one operation, keeping the state the Rust code leaves behind
(unchanged when the operation errors before mutating). -/
def applyOp (subway_map : SubwayMap) (g : GameState) (o : Op) : GameState :=
  match o with
  | .markFromLine pid line_id card =>
    match lookupA pid g.players with
    | none => g
    | some sheet =>
      match sheet.mark_stations_from_line line_id card subway_map with
      | .ok (_, sheet') => { g with players := insertA pid sheet' g.players }
      | .error _ => g
  | .act pid action => (g.process_player_action pid action subway_map).2

/-- Apply a sequence of operations in order. -/
def applyOps (subway_map : SubwayMap) (g : GameState) (ops : List Op) : GameState :=
  ops.foldl (applyOp subway_map) g

/-- Whether a card is an Express card (`matches!(card, Card::Express(_))`). -/
def isExpressCard : Card → Bool
  | .express _ => true
  | _ => false

/-- Mark every station in `st` with a Cross, left to right (the insertion
loop in the Number/Express/Six branch of `mark_stations_from_line`). -/
def markCrossAll (sheet : PlayerSheet) (st : List String) : PlayerSheet :=
  let ms := st.foldl (fun m s => insertA s StationMark.cross m) sheet.marked_stations
  { sheet with marked_stations := ms }

/-- Mark one station with TransferNumber(cc) (the insertion in the Transfer
branch of `mark_stations_from_line`). -/
def markTransferAt (sheet : PlayerSheet) (t : String) (cc : Nat) : PlayerSheet :=
  let ms := insertA t (StationMark.transferNumber cc) sheet.marked_stations
  { sheet with marked_stations := ms }

/-- The scoring formula as the specification words it: sum of recorded
completion points over completed lines, plus twice the connection count of
every TransferNumber mark, minus ⌊empty stations / 2⌋ where the empty count
is total stations across all lines minus this player's marked count.  Stated
from the spec, to be compared with `PlayerSheet.calculate_score`. -/
def score_spec (sheet : PlayerSheet) (subway_map : SubwayMap) : Int :=
  (sheet.completed_lines.map (fun line_id =>
    match lookupA line_id sheet.line_completion_status with
    | some (.firstToComplete points) => (points : Int)
    | some (.laterCompletion points) => (points : Int)
    | _ => 0)).sum
  + 2 * (sheet.marked_stations.map (fun entry =>
      match entry.2 with
      | .transferNumber connections => (connections : Int)
      | _ => 0)).sum
  - (((subway_map.lines.map (fun l => l.2.stations.length)).sum
      - sheet.marked_stations.length : Nat) / 2 : Nat)

/-! Concrete inputs used by counterexamples and witnesses. -/

/-- The 15 cards of `create_deck` other than the Six. -/
def deckWithoutSix : List Card :=
  [.number 1, .number 1, .number 2, .number 2, .number 3, .number 3,
   .number 4, .number 4, .number 5, .number 5,
   .express 2, .express 3, .express 4, .transfer, .freeRide]

/-- A playerless state holding the full 16-card set with the Six revealed. -/
def sixRevealedGame : GameState :=
  { players := [], current_card := some .six, deck := deckWithoutSix, discard_pile := [],
    round := 0, game_ended := false }

/-- A one-line, one-station map; the station lies on three lines. -/
def exampleMap : SubwayMap :=
  { stations := [("a", { lines := ["l1", "l2", "l3"] })],
    lines := [("l1", { stations := ["a"], completion_points := (6, 3) })] }

/-- A sheet for `exampleMap` with station "a" already marked Cross. -/
def crossSheet : PlayerSheet :=
  { player_id := 0, train_cars := [("l1", [none, none, none, none])],
    marked_stations := [("a", .cross)], completed_lines := [],
    line_completion_status := [("l1", .notCompleted)] }

/-- `crossSheet`'s owner facing a revealed Transfer card. -/
def transferGame : GameState :=
  { players := [(0, crossSheet)], current_card := some .transfer, deck := [],
    discard_pile := [], round := 0, game_ended := false }

/-- `crossSheet`'s owner facing a revealed FreeRide card. -/
def freeRideGame : GameState :=
  { players := [(0, crossSheet)], current_card := some .freeRide, deck := [],
    discard_pile := [], round := 0, game_ended := false }

/-- A single five-station line. -/
def fiveStationMap : SubwayMap :=
  { stations := [],
    lines := [("L", { stations := ["s1", "s2", "s3", "s4", "s5"],
                      completion_points := (6, 3) })] }

/-- A sheet for `fiveStationMap` with stations 1–3 already marked. -/
def fiveStationSheet : PlayerSheet :=
  { player_id := 0, train_cars := [("L", [none, none, none, none])],
    marked_stations := [("s1", .cross), ("s2", .cross), ("s3", .cross)],
    completed_lines := [],
    line_completion_status := [("L", .notCompleted)] }

/-- A seven-station map split over two lines. -/
def sevenStationMap : SubwayMap :=
  { stations := [],
    lines := [("L1", { stations := ["a", "b", "c"], completion_points := (6, 3) }),
              ("L2", { stations := ["d", "e", "f", "g"], completion_points := (5, 2) })] }

/-- A sheet for `sevenStationMap`: line L1 completed first for 6 points,
TransferNumber marks of 2 and 3, three stations marked (so 4 empty). -/
def scoringSheet : PlayerSheet :=
  { player_id := 0, train_cars := [],
    marked_stations := [("a", .transferNumber 2), ("b", .transferNumber 3), ("c", .cross)],
    completed_lines := ["L1"],
    line_completion_status := [("L1", .firstToComplete 6), ("L2", .notCompleted)] }

/-- A state with an exhausted deck and a three-card discard pile. -/
def emptyDeckGame : GameState :=
  { players := [], current_card := none, deck := [],
    discard_pile := [.six, .transfer, .number 1], round := 0, game_ended := false }

/-!  Theorems. -/

/-- `lookupA` after inserting at the same key. -/
theorem lookupA_insertA_self {α β : Type} [DecidableEq α] (k : α) (v : β)
    (l : List (α × β)) : lookupA k (insertA k v l) = some v := by
  induction l with
  | nil => simp [insertA, lookupA]
  | cons hd tl ih =>
    obtain ⟨a, b⟩ := hd
    by_cases h : a = k <;> simp [insertA, lookupA, h, ih]

/-- `lookupA` after inserting at a different key. -/
theorem lookupA_insertA_ne {α β : Type} [DecidableEq α] {k k' : α} (v : β)
    (l : List (α × β)) (h : k ≠ k') :
    lookupA k' (insertA k v l) = lookupA k' l := by
  induction l with
  | nil => simp [insertA, lookupA, h]
  | cons hd tl ih =>
    obtain ⟨a, b⟩ := hd
    by_cases ha : a = k
    · subst ha
      simp [insertA, lookupA, h, ih]
    · simp [insertA, lookupA, ha, ih]

/-- Folding same-value insertions over keys avoiding `s` does not change
`lookupA s`. -/
theorem lookupA_foldl_insertA_not_mem {β : Type} (s : String) (v : β)
    (keys : List String) (l : List (String × β)) (h : s ∉ keys) :
    lookupA s (keys.foldl (fun m k => insertA k v m) l) = lookupA s l := by
  induction keys generalizing l with
  | nil => rfl
  | cons k ks ih =>
    simp only [List.mem_cons, not_or] at h
    rw [List.foldl_cons, ih _ h.2, lookupA_insertA_ne _ _ (fun he => h.1 he.symm)]

/-- Folding same-value insertions over keys containing `s` sets
`lookupA s` to that value. -/
theorem lookupA_foldl_insertA_mem {β : Type} (s : String) (v : β)
    (keys : List String) (l : List (String × β)) (h : s ∈ keys) :
    lookupA s (keys.foldl (fun m k => insertA k v m) l) = some v := by
  induction keys generalizing l with
  | nil => cases h
  | cons k ks ih =>
    by_cases hs : s ∈ ks
    · rw [List.foldl_cons]
      exact ih _ hs
    · have hk : s = k := by
        rcases List.mem_cons.mp h with h' | h'
        · exact h'
        · exact absurd h' hs
      subst hk
      rw [List.foldl_cons, lookupA_foldl_insertA_not_mem _ _ _ _ hs, lookupA_insertA_self]

/-- Claim C9: `Card::create_deck` returns exactly 16 cards whose multiset is
two each of Number(1)–Number(5), one Six, one each of Express(2), Express(3),
Express(4), one Transfer and one FreeRide. -/
theorem create_deck_multiset :
    Card.create_deck.length = 16 ∧
    Card.create_deck.count (.number 1) = 2 ∧
    Card.create_deck.count (.number 2) = 2 ∧
    Card.create_deck.count (.number 3) = 2 ∧
    Card.create_deck.count (.number 4) = 2 ∧
    Card.create_deck.count (.number 5) = 2 ∧
    Card.create_deck.count .six = 1 ∧
    Card.create_deck.count (.express 2) = 1 ∧
    Card.create_deck.count (.express 3) = 1 ∧
    Card.create_deck.count (.express 4) = 1 ∧
    Card.create_deck.count .transfer = 1 ∧
    Card.create_deck.count .freeRide = 1 := by decide

/-- Claim C2 (code bug): `next_round` on a state whose revealed card is the
Six loses that card entirely, so the deck/discard/current total drops from 16
to 15.  `next_round` `take`s the current card before calling
`handle_card_six`, which then finds `current_card` already `None` and never
returns the Six to the deck. -/
theorem next_round_six_drops_card :
    sixRevealedGame.cardTotal = 16 ∧ (sixRevealedGame.next_round 0).cardTotal = 15 := by
  constructor <;> rfl

/-- Counterexample to claim C1 as stated: station "a" is marked Cross, yet
processing a MarkTransferStation action on "a" replaces the mark with
TransferNumber(3) — the mark kind is not preserved. -/
theorem mark_kind_not_preserved_counterexample :
    (lookupA 0 transferGame.players).map (fun s => lookupA "a" s.marked_stations)
      = some (some .cross) ∧
    (lookupA 0 (transferGame.process_player_action 0 (.markTransferStation "a")
        exampleMap).2.players).map (fun s => lookupA "a" s.marked_stations)
      = some (some (.transferNumber 3)) := by decide

/-- Counterexample to claim C3 as stated: the station "ghost" is absent from
the map, yet MarkFreeRideStation succeeds and marks it — no validation error,
and the state is mutated. -/
theorem unknown_free_ride_station_counterexample :
    lookupA "ghost" exampleMap.stations = none ∧
    (freeRideGame.process_player_action 0 (.markFreeRideStation "ghost")
        exampleMap).1.isOk = true ∧
    (lookupA 0 (freeRideGame.process_player_action 0 (.markFreeRideStation "ghost")
        exampleMap).2.players).map (fun s => lookupA "ghost" s.marked_stations)
      = some (some .cross) := by decide

/-- Claim C10: with an empty players map, every-player-every-window-filled is
vacuously true, so `check_game_end` returns true and `next_round` sets
`game_ended`. -/
theorem check_game_end_no_players (g : GameState) (seed : Nat) (h : g.players = []) :
    g.check_game_end = true ∧ (g.next_round seed).game_ended = true := by
  have hend : ∀ g' : GameState, g'.players = [] → g'.check_game_end = true := by
    intro g' h'
    simp [GameState.check_game_end, h']
  refine ⟨hend g h, ?_⟩
  rcases hc : g.current_card with _ | card
  · simp [GameState.next_round, hc, GameState.check_game_end, h]
  · cases card <;>
      simp [GameState.next_round, hc, GameState.handle_card_six,
        GameState.check_game_end, h]

/-- Witness for C10 at a concrete playerless state. -/
theorem check_game_end_no_players_witness :
    sixRevealedGame.check_game_end = true ∧
    (sixRevealedGame.next_round 0).game_ended = true :=
  check_game_end_no_players sixRevealedGame 0 rfl



theorem findStationsAux_express_eq (marked : List (String × StationMark))
    (l : List String) (v : Nat) :
    findStationsAux marked true l v
      = (l.filter (fun s => !containsA s marked)).take v := by
  induction l generalizing v with
  | nil => cases v <;> rfl
  | cons s rest ih =>
    cases v with
    | zero => rfl
    | succ n =>
      by_cases h : containsA s marked
      · simp [findStationsAux, h, ih]
      · simp [findStationsAux, h, ih]

theorem findStationsAux_regular_eq (marked : List (String × StationMark))
    (l : List String) (v : Nat) :
    findStationsAux marked false l v
      = (l.takeWhile (fun s => !containsA s marked)).take v := by
  induction l generalizing v with
  | nil => cases v <;> rfl
  | cons s rest ih =>
    cases v with
    | zero => rfl
    | succ n =>
      by_cases h : containsA s marked
      · simp [findStationsAux, h, List.takeWhile_cons]
      · simp [findStationsAux, h, List.takeWhile_cons, ih]

theorem mem_findStationsAux {marked : List (String × StationMark)} {ex : Bool}
    {l : List String} {v : Nat} {s : String}
    (h : s ∈ findStationsAux marked ex l v) : containsA s marked = false := by
  induction l generalizing v with
  | nil => cases v <;> simp [findStationsAux] at h
  | cons t rest ih =>
    cases v with
    | zero => simp [findStationsAux] at h
    | succ n =>
      by_cases ht : containsA t marked
      · cases ex with
        | false => simp [findStationsAux, ht] at h
        | true =>
          simp only [findStationsAux, ht, if_true] at h
          exact ih h
      · simp only [findStationsAux, ht, if_false, List.mem_cons,
          Bool.false_eq_true] at h
        rcases h with h | h
        · subst h
          simpa using ht
        · exact ih h

theorem mark_stations_from_line_value_card (sheet : PlayerSheet) (line_id : String)
    (card : Card) (map : SubwayMap) (ln : SubwayLine)
    (hl : lookupA line_id map.lines = some ln)
    (h1 : card ≠ .freeRide) (h2 : card ≠ .transfer) :
    sheet.mark_stations_from_line line_id card map
      = .ok (findStationsAux sheet.marked_stations (isExpressCard card) ln.stations
            (card.get_value.getD 0),
          markCrossAll sheet (findStationsAux sheet.marked_stations (isExpressCard card)
            ln.stations (card.get_value.getD 0))) := by
  cases card with
  | number n =>
    simp [PlayerSheet.mark_stations_from_line, PlayerSheet.find_stations_to_mark, hl,
      Card.get_value, isExpressCard, markCrossAll]
  | six =>
    simp [PlayerSheet.mark_stations_from_line, PlayerSheet.find_stations_to_mark, hl,
      Card.get_value, isExpressCard, markCrossAll]
  | express n =>
    simp [PlayerSheet.mark_stations_from_line, PlayerSheet.find_stations_to_mark, hl,
      Card.get_value, isExpressCard, markCrossAll]
  | transfer => exact absurd rfl h2
  | freeRide => exact absurd rfl h1

theorem mark_stations_from_line_cross (sheet : PlayerSheet) (line_id : String)
    (card : Card) (map : SubwayMap) (st : List String) (sheet' : PlayerSheet)
    (hcard : (∃ v, card = .number v ∨ card = .express v) ∨ card = .six)
    (hok : sheet.mark_stations_from_line line_id card map = .ok (st, sheet')) :
    ∀ s ∈ st, containsA s sheet.marked_stations = false ∧
      lookupA s sheet'.marked_stations = some .cross := by
  have h1 : card ≠ .freeRide := by
    rcases hcard with ⟨v, hc | hc⟩ | hc <;> subst hc <;> simp
  have h2 : card ≠ .transfer := by
    rcases hcard with ⟨v, hc | hc⟩ | hc <;> subst hc <;> simp
  rcases hl : lookupA line_id map.lines with _ | ln
  · cases card <;> simp [PlayerSheet.mark_stations_from_line, hl] at hok
  · rw [mark_stations_from_line_value_card _ _ _ _ _ hl h1 h2] at hok
    simp only [Except.ok.injEq, Prod.mk.injEq] at hok
    obtain ⟨hst, hsheet⟩ := hok
    intro s hs
    rw [← hst] at hs
    refine ⟨mem_findStationsAux hs, ?_⟩
    rw [← hsheet]
    exact lookupA_foldl_insertA_mem s _ _ _ hs



/-- Claim C5: a Number or Six card marks Cross on unmarked stations in line
order and stops at the first already-marked station, forfeiting the remaining
marks (`takeWhile` then `take value`), while an Express card skips marked
stations without consuming a mark (`filter` then `take value`); every station
returned was unmarked and ends up Cross.  In particular, on a 5-station line
with stations 1–3 marked, Express(2) marks stations 4 and 5 and Number(2)
marks nothing. -/
theorem number_stops_express_skips :
    (∀ (sheet : PlayerSheet) (line_id : String) (v : Nat) (map : SubwayMap) (ln : SubwayLine),
      lookupA line_id map.lines = some ln →
      sheet.find_stations_to_mark line_id v false map
          = .ok ((ln.stations.takeWhile
              (fun s => !containsA s sheet.marked_stations)).take v) ∧
      sheet.find_stations_to_mark line_id v true map
          = .ok ((ln.stations.filter
              (fun s => !containsA s sheet.marked_stations)).take v)) ∧
    (∀ (sheet : PlayerSheet) (line_id : String) (card : Card) (map : SubwayMap)
       (st : List String) (sheet' : PlayerSheet),
      (∃ v, card = .number v ∨ card = .express v) ∨ card = .six →
      sheet.mark_stations_from_line line_id card map = .ok (st, sheet') →
      ∀ s ∈ st, containsA s sheet.marked_stations = false ∧
        lookupA s sheet'.marked_stations = some .cross) ∧
    (∃ sheet', fiveStationSheet.mark_stations_from_line "L" (.express 2) fiveStationMap
        = .ok (["s4", "s5"], sheet') ∧
      lookupA "s4" sheet'.marked_stations = some .cross ∧
      lookupA "s5" sheet'.marked_stations = some .cross) ∧
    (∃ sheet', fiveStationSheet.mark_stations_from_line "L" (.number 2) fiveStationMap
        = .ok ([], sheet') ∧ sheet' = fiveStationSheet) := by
  refine ⟨?_, mark_stations_from_line_cross, ?_, ?_⟩
  · intro sheet line_id v map ln h
    constructor <;>
      simp [PlayerSheet.find_stations_to_mark, h, findStationsAux_regular_eq,
        findStationsAux_express_eq]
  · exact ⟨_, rfl, rfl, rfl⟩
  · exact ⟨_, rfl, rfl⟩

/-- Witness for C5. -/
theorem number_stops_express_skips_witness :
    fiveStationSheet.find_stations_to_mark "L" 2 false fiveStationMap = .ok [] ∧
    fiveStationSheet.find_stations_to_mark "L" 2 true fiveStationMap = .ok ["s4", "s5"] := by
  have h := number_stops_express_skips.1 fiveStationSheet "L" 2 fiveStationMap
    { stations := ["s1", "s2", "s3", "s4", "s5"], completion_points := (6, 3) } rfl
  exact ⟨h.1.trans rfl, h.2.trans rfl⟩



/-- Claim C7: for a line present in the map, `check_line_completion` returns
true and appends the line to `completed_lines` iff every station of the line
is marked and the line is not already recorded; calling it again after a
completion returns false, and the line's multiplicity in `completed_lines`
never exceeds one. -/
theorem check_line_completion_spec (sheet : PlayerSheet) (line_id : String)
    (map : SubwayMap) (ln : SubwayLine) (h : lookupA line_id map.lines = some ln) :
    ∃ b sheet', sheet.check_line_completion line_id map = some (b, sheet') ∧
      (b = true ↔ ln.stations.all (fun s => containsA s sheet.marked_stations) = true ∧
        line_id ∉ sheet.completed_lines) ∧
      (b = true → sheet'.completed_lines = sheet.completed_lines ++ [line_id]) ∧
      (b = false → sheet' = sheet) ∧
      (b = true → sheet'.check_line_completion line_id map = some (false, sheet')) ∧
      (sheet.completed_lines.count line_id ≤ 1 →
        sheet'.completed_lines.count line_id ≤ 1) := by
  by_cases hc : (ln.stations.all (fun s => containsA s sheet.marked_stations)
      && !(sheet.completed_lines.contains line_id)) = true
  · refine ⟨true, { sheet with completed_lines := sheet.completed_lines ++ [line_id] }, ?_, ?_, ?_, ?_, ?_, ?_⟩
    · simp only [PlayerSheet.check_line_completion, h, hc, if_pos]
    · simp only [Bool.and_eq_true, Bool.not_eq_true'] at hc
      simp [hc.1, hc.2, List.elem_iff] at hc ⊢
      exact hc
    · intro _
      rfl
    · intro hfalse
      cases hfalse
    · intro _
      have hmem : ((sheet.completed_lines ++ [line_id]).contains line_id) = true := by
        simp [List.elem_iff]
      simp [PlayerSheet.check_line_completion, h, hmem]
    · intro hcount
      have hnotmem : line_id ∉ sheet.completed_lines := by
        simp only [Bool.and_eq_true, Bool.not_eq_true'] at hc
        simpa [List.elem_iff] using hc.2
      simp [List.count_append, List.count_eq_zero.mpr hnotmem]
  · refine ⟨false, sheet, ?_, ?_, ?_, ?_, ?_, ?_⟩
    · simp only [PlayerSheet.check_line_completion, h]
      rw [if_neg hc]
    · constructor
      · intro hfalse
        cases hfalse
      · intro ⟨hall, hmem⟩
        exact absurd (by simp [hall, List.elem_iff, hmem]) hc
    · intro hfalse
      cases hfalse
    · intro _
      rfl
    · intro hfalse
      cases hfalse
    · exact id



/-- Witness for C7 at `crossSheet` on the one-station line "l1". -/
theorem check_line_completion_spec_witness :
    ∃ b sheet', crossSheet.check_line_completion "l1" exampleMap = some (b, sheet') ∧
      (b = true ↔ (SubwayLine.mk ["a"] (6, 3)).stations.all
          (fun s => containsA s crossSheet.marked_stations) = true ∧
        "l1" ∉ crossSheet.completed_lines) ∧
      (b = true → sheet'.completed_lines = crossSheet.completed_lines ++ ["l1"]) ∧
      (b = false → sheet' = crossSheet) ∧
      (b = true → sheet'.check_line_completion "l1" exampleMap = some (false, sheet')) ∧
      (crossSheet.completed_lines.count "l1" ≤ 1 →
        sheet'.completed_lines.count "l1" ≤ 1) :=
  check_line_completion_spec crossSheet "l1" exampleMap (SubwayLine.mk ["a"] (6, 3)) rfl



theorem foldl_add_eq_sum {α M : Type} [AddCommMonoid M] (f : α → M) (g : M → α → M)
    (hg : ∀ acc x, g acc x = acc + f x) (l : List α) (init : M) :
    l.foldl g init = init + (l.map f).sum := by
  induction l generalizing init with
  | nil => simp
  | cons x xs ih => simp [hg, ih, add_assoc]

theorem transfer_sum_mul_two (l : List (String × StationMark)) :
    (l.map (fun entry => match entry.2 with
      | StationMark.transferNumber c => (c : Int) * 2
      | _ => 0)).sum
    = 2 * (l.map (fun entry => match entry.2 with
      | StationMark.transferNumber c => (c : Int)
      | _ => 0)).sum := by
  induction l with
  | nil => simp
  | cons x xs ih =>
    rcases x with ⟨k, mk⟩
    cases mk with
    | cross => simp [ih]
    | transferNumber c =>
      simp [ih]
      ring

/-- Claim C6: `calculate_score` equals the spec formula — sum of recorded
completion points over completed lines, plus twice each TransferNumber
connection count, minus ⌊(total stations − marked stations)/2⌋ — whenever the
marked count does not exceed the station total (the Rust `u32` subtraction
would underflow otherwise); the worked example scores 14. -/
theorem calculate_score_eq_spec :
    (∀ (sheet : PlayerSheet) (map : SubwayMap),
      sheet.marked_stations.length ≤ (map.lines.map (fun l => l.2.stations.length)).sum →
      sheet.calculate_score map = score_spec sheet map) ∧
    scoringSheet.calculate_score sevenStationMap = 14 := by
  constructor
  · intro sheet map hle
    have h1 := foldl_add_eq_sum
      (fun line_id => match lookupA line_id sheet.line_completion_status with
        | some (.firstToComplete p) => (p : Int)
        | some (.laterCompletion p) => (p : Int)
        | _ => 0)
      (fun score line_id => match lookupA line_id sheet.line_completion_status with
        | some (.firstToComplete points) => score + points
        | some (.laterCompletion points) => score + points
        | _ => score)
      (by
        intro acc x
        rcases h : lookupA x sheet.line_completion_status with _ | st
        · simp [h]
        · cases st <;> simp [h])
      sheet.completed_lines 0
    have h2 := foldl_add_eq_sum
      (fun entry => match entry.2 with
        | StationMark.transferNumber c => (c : Int) * 2
        | _ => 0)
      (fun score entry => match entry.2 with
        | StationMark.transferNumber connections => score + (connections : Int) * 2
        | _ => score)
      (by
        intro acc x
        rcases x with ⟨k, mk⟩
        cases mk <;> simp)
      sheet.marked_stations
    have h3 := foldl_add_eq_sum
      (fun l : String × SubwayLine => l.2.stations.length)
      (fun acc l => acc + l.2.stations.length)
      (by intro acc x; rfl)
      map.lines 0
    simp only [PlayerSheet.calculate_score, PlayerSheet.count_empty_stations, score_spec,
      h1, h2, h3, zero_add]
    rw [transfer_sum_mul_two]
  · rfl



/-- Witness for C6 at the seven-station example: the code score matches the
spec formula and equals 14. -/
theorem calculate_score_eq_spec_witness :
    scoringSheet.calculate_score sevenStationMap = score_spec scoringSheet sevenStationMap ∧
    scoringSheet.calculate_score sevenStationMap = 14 :=
  ⟨calculate_score_eq_spec.1 scoringSheet sevenStationMap (by decide),
   calculate_score_eq_spec.2⟩



theorem cons_set_perm {α : Type} (l : List α) (m : Nat) (b c : α)
    (h : l.get? m = some b) : (b :: l.set m c).Perm (c :: l) := by
  induction l generalizing m with
  | nil => simp at h
  | cons hd tl ih =>
    cases m with
    | zero =>
      simp at h
      subst h
      simp only [List.set]
      exact List.Perm.swap _ _ _
    | succ m' =>
      simp at h
      simp only [List.set]
      refine List.Perm.trans (List.Perm.swap hd b _) ?_
      exact List.Perm.trans ((ih m' (by simpa using h)).cons hd) (List.Perm.swap c hd tl)

theorem set_set_perm {α : Type} (l : List α) (i j : Nat) (a b : α)
    (hi : l.get? i = some a) (hj : l.get? j = some b) :
    ((l.set i b).set j a).Perm l := by
  induction l generalizing i j with
  | nil => simp at hi
  | cons hd tl ih =>
    cases i with
    | zero =>
      simp at hi
      subst hi
      cases j with
      | zero =>
        simp at hj
        subst hj
        simp
      | succ m =>
        simp only [List.set] at *
        exact cons_set_perm tl m b hd (by simpa using hj)
    | succ n =>
      cases j with
      | zero =>
        simp at hj
        subst hj
        simp only [List.set]
        exact cons_set_perm tl n a hd (by simpa using hi)
      | succ m =>
        simp only [List.set]
        exact ((ih n m (by simpa using hi) (by simpa using hj))).cons hd

theorem swapL_perm {α : Type} (l : List α) (i j : Nat) : (swapL l i j).Perm l := by
  unfold swapL
  rcases hi : l.get? i with _ | a
  · simp
  · rcases hj : l.get? j with _ | b
    · simp
    · exact set_set_perm l i j a b hi hj

theorem shuffleIter_perm {α : Type} (l : List α) (s : Nat) (i : Nat) :
    (shuffleIter l s i).Perm l := by
  induction i generalizing l s with
  | zero => exact List.Perm.refl l
  | succ n ih =>
    exact (ih _ _).trans (swapL_perm l (n + 1) (lcgNext s % (n + 2)))

theorem shuffle_deck_perm (deck : List Card) (seed : Nat) :
    (GameState.shuffle_deck deck seed).Perm deck :=
  shuffleIter_perm deck seed (deck.length - 1)



theorem popV_nil {α : Type} : popV ([] : List α) = (none, []) := rfl

theorem popV_ne_nil {α : Type} (l : List α) (h : l ≠ []) :
    popV l = (some (l.getLast h), l.dropLast) ∧ l.dropLast ++ [l.getLast h] = l := by
  constructor
  · simp [popV, List.getLast?_eq_getLast l h]
  · exact List.dropLast_concat_getLast h



/-- Claim C8: `draw_card` returns None iff both the deck and the discard
pile are empty; when the deck is empty and the discard pile is not, it moves
the entire discard pile into the deck (the popped card plus the new deck are
a permutation of the old discard pile), reshuffles with the fresh seed, and
returns Some card. -/
theorem draw_card_exhaustion (g : GameState) (seed : Nat) :
    ((g.draw_card seed).1 = none ↔ g.deck = [] ∧ g.discard_pile = []) ∧
    (g.deck = [] → g.discard_pile ≠ [] →
      ∃ c g', g.draw_card seed = (some c, g') ∧
        (g'.deck ++ [c]).Perm g.discard_pile ∧ g'.discard_pile = []) := by
  rcases hd : g.deck with _ | ⟨d, ds⟩
  · rcases hp : g.discard_pile with _ | ⟨x, xs⟩
    · have hdraw : g.draw_card seed = (none, g) := by
        simp [GameState.draw_card, hd, hp, popV]
      rw [hdraw]
      constructor
      · simp [hd, hp]
      · intro _ hne
        simp [hp] at hne
    · have hperm : (GameState.shuffle_deck (x :: xs) seed).Perm (x :: xs) :=
        shuffle_deck_perm (x :: xs) seed
      have hne2 : GameState.shuffle_deck (x :: xs) seed ≠ [] := by
        intro h0
        rw [h0] at hperm
        exact absurd hperm.length_eq (by simp)
      obtain ⟨hpop, happ⟩ := popV_ne_nil _ hne2
      have hdraw : g.draw_card seed
          = (some ((GameState.shuffle_deck (x :: xs) seed).getLast hne2),
             { g with deck := (GameState.shuffle_deck (x :: xs) seed).dropLast,
                      discard_pile := [] }) := by
        simp only [GameState.draw_card, hd, hp, popV_nil, List.nil_append,
          List.isEmpty_cons, Bool.false_eq_true, if_false, hpop]
      rw [hdraw]
      constructor
      · simp [hd, hp]
      · intro _ _
        refine ⟨_, _, rfl, ?_, rfl⟩
        dsimp only
        rw [happ]
        exact hperm
  · have hne : (d :: ds) ≠ [] := by simp
    obtain ⟨hpop, _⟩ := popV_ne_nil (d :: ds) hne
    have hdraw : g.draw_card seed = (some ((d :: ds).getLast hne),
        { g with deck := (d :: ds).dropLast }) := by
      simp only [GameState.draw_card, hd, hpop]
    rw [hdraw]
    constructor
    · simp [hd]
    · intro h0
      simp_all



/-- Witness for C8: drawing from an exhausted deck with a three-card discard
pile reshuffles the discard into the deck and returns a card. -/
theorem draw_card_exhaustion_witness :
    ∃ c g', emptyDeckGame.draw_card 42 = (some c, g') ∧
      (g'.deck ++ [c]).Perm emptyDeckGame.discard_pile ∧ g'.discard_pile = [] :=
  (draw_card_exhaustion emptyDeckGame 42).2 rfl (by decide)



/-- Claim C4: for the single-step actions MarkTransferStation,
MarkFreeRideStation and CompleteLineAnnouncement, an error result from
`process_player_action` leaves the GameState unchanged; and
`add_card_to_line` fails (without mutation, being pure) exactly with the
no-empty-window error when `can_use_line` is false. -/
theorem single_step_error_no_mutation :
    (∀ (g : GameState) (pid : Nat) (sid : String) (map : SubwayMap) (e : String),
      (g.process_player_action pid (.markTransferStation sid) map).1 = .error e →
      (g.process_player_action pid (.markTransferStation sid) map).2 = g) ∧
    (∀ (g : GameState) (pid : Nat) (sid : String) (map : SubwayMap) (e : String),
      (g.process_player_action pid (.markFreeRideStation sid) map).1 = .error e →
      (g.process_player_action pid (.markFreeRideStation sid) map).2 = g) ∧
    (∀ (g : GameState) (pid : Nat) (lid : String) (map : SubwayMap) (e : String),
      (g.process_player_action pid (.completeLineAnnouncement lid) map).1 = .error e →
      (g.process_player_action pid (.completeLineAnnouncement lid) map).2 = g) ∧
    (∀ (sheet : PlayerSheet) (lid : String) (card : Card),
      sheet.can_use_line lid = false →
      sheet.add_card_to_line lid card = .error "No empty windows available for this line") := by
  refine ⟨?_, ?_, ?_, ?_⟩
  · intro g pid sid map e h
    rcases hc : g.current_card with _ | c
    · simp only [GameState.process_player_action, hc]
    · cases c <;> simp only [GameState.process_player_action, hc] at h ⊢ <;> try rfl
      rcases hs : lookupA sid map.stations with _ | st
      · simp only [hs]
      · rcases hp : lookupA pid g.players with _ | pl
        · simp only [hs, hp]
        · simp only [hs, hp] at h
          exact Except.noConfusion h
  · intro g pid sid map e h
    rcases hc : g.current_card with _ | c
    · simp only [GameState.process_player_action, hc]
    · cases c <;> simp only [GameState.process_player_action, hc] at h ⊢ <;> try rfl
      rcases hp : lookupA pid g.players with _ | pl
      · simp only [hp]
      · by_cases hm : containsA sid pl.marked_stations
        · simp only [hp, hm, if_true]
        · simp only [hp, hm, if_false] at h
          exact Except.noConfusion h
  · intro g pid lid map e h
    rcases hc : g.current_card with _ | c
    · simp only [GameState.process_player_action, hc]
    · cases c <;> simp only [GameState.process_player_action, hc]
  · intro sheet lid card h
    simp [PlayerSheet.add_card_to_line, h]

/-- Witness for C4: a MarkTransferStation naming an unknown station errors and
leaves the state unchanged; `add_card_to_line` on an unknown line errors. -/
theorem single_step_error_no_mutation_witness :
    (transferGame.process_player_action 0 (.markTransferStation "ghost") exampleMap).2
      = transferGame ∧
    crossSheet.add_card_to_line "nope" .six
      = .error "No empty windows available for this line" :=
  ⟨single_step_error_no_mutation.1 transferGame 0 "ghost" exampleMap "Station not found" rfl,
   single_step_error_no_mutation.2.2.2 crossSheet "nope" .six (by decide)⟩



/-- Claim C3 (amended): MarkTransferStation with a station absent from the
map returns a validation error and leaves the state unchanged, as does
ChooseLine when the line is absent from the player's train_cars (which holds
for a line absent from the map when the sheet was built from it); but
MarkFreeRideStation performs no existence check — with a FreeRide card and a
not-yet-marked station id it succeeds and marks the station even when the id
is unknown. -/
theorem unknown_target_validation :
    (∀ (g : GameState) (pid : Nat) (sid : String) (map : SubwayMap),
      lookupA sid map.stations = none →
      (∃ e, (g.process_player_action pid (.markTransferStation sid) map).1 = .error e) ∧
      (g.process_player_action pid (.markTransferStation sid) map).2 = g) ∧
    (∀ (g : GameState) (pid : Nat) (lid : String) (idx : Nat) (map : SubwayMap),
      (∀ sheet, lookupA pid g.players = some sheet → lookupA lid sheet.train_cars = none) →
      (∃ e, (g.process_player_action pid (.chooseLine lid idx) map).1 = .error e) ∧
      (g.process_player_action pid (.chooseLine lid idx) map).2 = g) ∧
    (∀ (g : GameState) (pid : Nat) (sid : String) (map : SubwayMap) (sheet : PlayerSheet),
      g.current_card = some .freeRide →
      lookupA pid g.players = some sheet →
      containsA sid sheet.marked_stations = false →
      ∃ sheet', (g.process_player_action pid (.markFreeRideStation sid) map).1
          = .ok [.playerActionResult true "Marked free ride station"] ∧
        lookupA pid (g.process_player_action pid (.markFreeRideStation sid) map).2.players
          = some sheet' ∧
        lookupA sid sheet'.marked_stations = some .cross) := by
  refine ⟨?_, ?_, ?_⟩
  · intro g pid sid map hs
    rcases hc : g.current_card with _ | c
    · exact ⟨⟨"No card revealed", by simp [GameState.process_player_action, hc]⟩,
        by simp [GameState.process_player_action, hc]⟩
    · cases c
      case transfer =>
        exact ⟨⟨"Station not found", by simp [GameState.process_player_action, hc, hs]⟩,
          by simp [GameState.process_player_action, hc, hs]⟩
      all_goals
        exact ⟨⟨"Can only mark transfer station with transfer card",
          by simp [GameState.process_player_action, hc]⟩,
          by simp [GameState.process_player_action, hc]⟩
  · intro g pid lid idx map hno
    rcases hc : g.current_card with _ | c
    · exact ⟨⟨"No card revealed", by simp [GameState.process_player_action, hc]⟩,
        by simp [GameState.process_player_action, hc]⟩
    · rcases hp : lookupA pid g.players with _ | player
      · refine ⟨⟨"Player not found", ?_⟩, ?_⟩ <;>
          simp only [GameState.process_player_action, hc, hp]
      · have hcu : player.can_use_line lid = false := by
          simp [PlayerSheet.can_use_line, hno player hp]
        have hadd : player.add_card_to_line lid c
            = .error "No empty windows available for this line" := by
          simp [PlayerSheet.add_card_to_line, hcu]
        refine ⟨⟨"No empty windows available for this line", ?_⟩, ?_⟩ <;>
          simp only [GameState.process_player_action, hc, hp, hadd]
  · intro g pid sid map sheet hc hp hm
    refine ⟨{ sheet with marked_stations := insertA sid StationMark.cross sheet.marked_stations },
      ?_, ?_, ?_⟩
    · simp only [GameState.process_player_action, hc, hp, hm, Bool.false_eq_true, if_false]
    · simp only [GameState.process_player_action, hc, hp, hm, Bool.false_eq_true, if_false]
      exact lookupA_insertA_self _ _ _
    · exact lookupA_insertA_self _ _ _

/-- Witness for C3's amended claim: unknown station for MarkTransferStation
errors without mutation; unmarked (and unknown) station for
MarkFreeRideStation is accepted and marked. -/
theorem unknown_target_validation_witness :
    (transferGame.process_player_action 0 (.markTransferStation "ghost") exampleMap).2
      = transferGame ∧
    (∃ sheet', (freeRideGame.process_player_action 0 (.markFreeRideStation "ghost")
        exampleMap).1 = .ok [.playerActionResult true "Marked free ride station"] ∧
      lookupA 0 (freeRideGame.process_player_action 0 (.markFreeRideStation "ghost")
        exampleMap).2.players = some sheet' ∧
      lookupA "ghost" sheet'.marked_stations = some .cross) :=
  ⟨(unknown_target_validation.1 transferGame 0 "ghost" exampleMap rfl).2,
   unknown_target_validation.2.2 freeRideGame 0 "ghost" exampleMap crossSheet rfl rfl rfl⟩



theorem mark_stations_from_line_freeRide_eq (sheet : PlayerSheet) (line_id : String)
    (map : SubwayMap) (ln : SubwayLine) (hl : lookupA line_id map.lines = some ln) :
    sheet.mark_stations_from_line line_id .freeRide map = .ok ([], sheet) := by
  simp [PlayerSheet.mark_stations_from_line, hl]

theorem mark_stations_from_line_transfer_none (sheet : PlayerSheet) (line_id : String)
    (map : SubwayMap) (ln : SubwayLine) (hl : lookupA line_id map.lines = some ln)
    (hf : ln.stations.find? (fun t => !containsA t sheet.marked_stations) = none) :
    sheet.mark_stations_from_line line_id .transfer map = .ok ([], sheet) := by
  simp [PlayerSheet.mark_stations_from_line, PlayerSheet.find_next_empty_station, hl, hf]

theorem mark_stations_from_line_transfer_some (sheet : PlayerSheet) (line_id : String)
    (map : SubwayMap) (ln : SubwayLine) (t : String) (station : Station)
    (hl : lookupA line_id map.lines = some ln)
    (hf : ln.stations.find? (fun u => !containsA u sheet.marked_stations) = some t)
    (hst : lookupA t map.stations = some station) :
    sheet.mark_stations_from_line line_id .transfer map
      = .ok ([t], markTransferAt sheet t (station.lines.length % 256)) := by
  simp [PlayerSheet.mark_stations_from_line, PlayerSheet.find_next_empty_station, hl, hf,
    hst, markTransferAt]

theorem mark_stations_from_line_transfer_badstation (sheet : PlayerSheet) (line_id : String)
    (map : SubwayMap) (ln : SubwayLine) (t : String)
    (hl : lookupA line_id map.lines = some ln)
    (hf : ln.stations.find? (fun u => !containsA u sheet.marked_stations) = some t)
    (hst : lookupA t map.stations = none) :
    sheet.mark_stations_from_line line_id .transfer map = .error "Station not found" := by
  simp [PlayerSheet.mark_stations_from_line, PlayerSheet.find_next_empty_station, hl, hf, hst]



theorem add_card_to_line_marked (sheet : PlayerSheet) (lid : String) (card : Card)
    (sheet' : PlayerSheet) (h : sheet.add_card_to_line lid card = .ok sheet') :
    sheet'.marked_stations = sheet.marked_stations := by
  unfold PlayerSheet.add_card_to_line at h
  by_cases hcu : sheet.can_use_line lid
  · simp only [hcu, Bool.not_true, Bool.false_eq_true, if_false] at h
    rcases hl : lookupA lid sheet.train_cars with _ | ws
    · rw [hl] at h
      cases h
    · rw [hl] at h
      by_cases hw : ws.any (fun w => w.isNone)
      · simp only [hw, if_true, Except.ok.injEq] at h
        rw [← h]
      · simp [hw] at h
  · simp [hcu] at h

theorem check_line_completion_marked (sheet : PlayerSheet) (lid : String) (map : SubwayMap)
    (b : Bool) (sheet' : PlayerSheet)
    (h : sheet.check_line_completion lid map = some (b, sheet')) :
    sheet'.marked_stations = sheet.marked_stations := by
  unfold PlayerSheet.check_line_completion at h
  rcases hl : lookupA lid map.lines with _ | ln
  · rw [hl] at h
    cases h
  · simp only [hl] at h
    by_cases hcond : (ln.stations.all (fun s => containsA s sheet.marked_stations)
        && !(sheet.completed_lines.contains lid)) = true
    · rw [if_pos hcond] at h
      simp only [Option.some.injEq, Prod.mk.injEq] at h
      rw [← h.2]
    · rw [if_neg hcond] at h
      simp only [Option.some.injEq, Prod.mk.injEq] at h
      rw [← h.2]

theorem mark_stations_preserves_mark (sheet : PlayerSheet) (line_id : String) (card : Card)
    (map : SubwayMap) (st : List String) (sheet' : PlayerSheet) (s : String) (m : StationMark)
    (hm : lookupA s sheet.marked_stations = some m)
    (hok : sheet.mark_stations_from_line line_id card map = .ok (st, sheet')) :
    lookupA s sheet'.marked_stations = some m := by
  have hcs : containsA s sheet.marked_stations = true := by
    simp [containsA, hm]
  rcases hl : lookupA line_id map.lines with _ | ln
  · cases card <;> simp [PlayerSheet.mark_stations_from_line, hl] at hok
  · cases card with
    | freeRide =>
      rw [mark_stations_from_line_freeRide_eq _ _ _ _ hl] at hok
      simp only [Except.ok.injEq, Prod.mk.injEq] at hok
      rw [← hok.2]
      exact hm
    | transfer =>
      rcases hf : ln.stations.find? (fun u => !containsA u sheet.marked_stations)
        with _ | t
      · rw [mark_stations_from_line_transfer_none _ _ _ _ hl hf] at hok
        simp only [Except.ok.injEq, Prod.mk.injEq] at hok
        rw [← hok.2]
        exact hm
      · rcases hst : lookupA t map.stations with _ | station
        · rw [mark_stations_from_line_transfer_badstation _ _ _ _ _ hl hf hst] at hok
          cases hok
        · rw [mark_stations_from_line_transfer_some _ _ _ _ _ _ hl hf hst] at hok
          simp only [Except.ok.injEq, Prod.mk.injEq] at hok
          have ht : containsA t sheet.marked_stations = false := by
            have := List.find?_some hf
            simpa using this
          have hts : t ≠ s := by
            intro he
            rw [he, hcs] at ht
            cases ht
          rw [← hok.2]
          simp only [markTransferAt]
          rw [lookupA_insertA_ne _ _ hts]
          exact hm
    | number n =>
      rw [mark_stations_from_line_value_card _ _ _ _ _ hl (by simp) (by simp)] at hok
      simp only [Except.ok.injEq, Prod.mk.injEq] at hok
      rw [← hok.2]
      have hnot : s ∉ findStationsAux sheet.marked_stations (isExpressCard (Card.number n))
          ln.stations ((Card.number n).get_value.getD 0) := by
        intro hmem
        rw [mem_findStationsAux hmem] at hcs
        cases hcs
      simp only [markCrossAll]
      rw [lookupA_foldl_insertA_not_mem _ _ _ _ hnot]
      exact hm
    | six =>
      rw [mark_stations_from_line_value_card _ _ _ _ _ hl (by simp) (by simp)] at hok
      simp only [Except.ok.injEq, Prod.mk.injEq] at hok
      rw [← hok.2]
      have hnot : s ∉ findStationsAux sheet.marked_stations (isExpressCard Card.six)
          ln.stations (Card.six.get_value.getD 0) := by
        intro hmem
        rw [mem_findStationsAux hmem] at hcs
        cases hcs
      simp only [markCrossAll]
      rw [lookupA_foldl_insertA_not_mem _ _ _ _ hnot]
      exact hm
    | express n =>
      rw [mark_stations_from_line_value_card _ _ _ _ _ hl (by simp) (by simp)] at hok
      simp only [Except.ok.injEq, Prod.mk.injEq] at hok
      rw [← hok.2]
      have hnot : s ∉ findStationsAux sheet.marked_stations (isExpressCard (Card.express n))
          ln.stations ((Card.express n).get_value.getD 0) := by
        intro hmem
        rw [mem_findStationsAux hmem] at hcs
        cases hcs
      simp only [markCrossAll]
      rw [lookupA_foldl_insertA_not_mem _ _ _ _ hnot]
      exact hm



theorem process_action_mark_evolution (g : GameState) (pid : Nat) (action : PlayerAction)
    (map : SubwayMap) (q : Nat) (sheet : PlayerSheet) (s : String) (m : StationMark)
    (hq : lookupA q g.players = some sheet)
    (hm : lookupA s sheet.marked_stations = some m) :
    ∃ sheet', lookupA q (g.process_player_action pid action map).2.players = some sheet' ∧
      ∃ m', lookupA s sheet'.marked_stations = some m' ∧
        (m' = m ∨ action = .markTransferStation s) := by
  rcases hc : g.current_card with _ | c
  · refine ⟨sheet, ?_, m, hm, .inl rfl⟩
    simp [GameState.process_player_action, hc, hq]
  · cases action with
    | completeLineAnnouncement lid =>
      refine ⟨sheet, ?_, m, hm, .inl rfl⟩
      simp [GameState.process_player_action, hc, hq]
    | markFreeRideStation sid =>
      cases c with
      | freeRide =>
        rcases hp : lookupA pid g.players with _ | player
        · refine ⟨sheet, ?_, m, hm, .inl rfl⟩
          simp [GameState.process_player_action, hc, hp, hq]
        · by_cases hmk : containsA sid player.marked_stations
          · refine ⟨sheet, ?_, m, hm, .inl rfl⟩
            simp [GameState.process_player_action, hc, hp, hmk, hq]
          · have hstate : (g.process_player_action pid (.markFreeRideStation sid) map).2.players
                = insertA pid { player with marked_stations := insertA sid StationMark.cross player.marked_stations } g.players := by
              simp [GameState.process_player_action, hc, hp, hmk]
            by_cases hqp : pid = q
            · subst hqp
              have hps : player = sheet := Option.some_injective _ (hp.symm.trans hq)
              subst hps
              have hss : sid ≠ s := by
                intro he
                rw [he] at hmk
                simp [containsA, hm] at hmk
              rw [hstate, lookupA_insertA_self]
              refine ⟨_, rfl, m, ?_, .inl rfl⟩
              rw [lookupA_insertA_ne _ _ hss]
              exact hm
            · rw [hstate, lookupA_insertA_ne _ _ hqp, hq]
              exact ⟨_, rfl, m, hm, .inl rfl⟩
      | number n =>
        refine ⟨sheet, ?_, m, hm, .inl rfl⟩
        simp [GameState.process_player_action, hc, hq]
      | six =>
        refine ⟨sheet, ?_, m, hm, .inl rfl⟩
        simp [GameState.process_player_action, hc, hq]
      | express n =>
        refine ⟨sheet, ?_, m, hm, .inl rfl⟩
        simp [GameState.process_player_action, hc, hq]
      | transfer =>
        refine ⟨sheet, ?_, m, hm, .inl rfl⟩
        simp [GameState.process_player_action, hc, hq]
    | markTransferStation sid =>
      cases c with
      | transfer =>
        rcases hst : lookupA sid map.stations with _ | station
        · refine ⟨sheet, ?_, m, hm, .inl rfl⟩
          simp [GameState.process_player_action, hc, hst, hq]
        · rcases hp : lookupA pid g.players with _ | player
          · refine ⟨sheet, ?_, m, hm, .inl rfl⟩
            simp [GameState.process_player_action, hc, hst, hp, hq]
          · have hstate : (g.process_player_action pid (.markTransferStation sid) map).2.players
                = insertA pid { player with marked_stations := insertA sid (StationMark.transferNumber (station.lines.length % 256)) player.marked_stations } g.players := by
              simp [GameState.process_player_action, hc, hst, hp]
            by_cases hqp : pid = q
            · subst hqp
              have hps : player = sheet := Option.some_injective _ (hp.symm.trans hq)
              subst hps
              rw [hstate, lookupA_insertA_self]
              by_cases hss : sid = s
              · subst hss
                refine ⟨_, rfl, StationMark.transferNumber (station.lines.length % 256), ?_, .inr rfl⟩
                exact lookupA_insertA_self _ _ _
              · refine ⟨_, rfl, m, ?_, .inl rfl⟩
                rw [lookupA_insertA_ne _ _ hss]
                exact hm
            · rw [hstate, lookupA_insertA_ne _ _ hqp, hq]
              exact ⟨_, rfl, m, hm, .inl rfl⟩
      | number n =>
        refine ⟨sheet, ?_, m, hm, .inl rfl⟩
        simp [GameState.process_player_action, hc, hq]
      | six =>
        refine ⟨sheet, ?_, m, hm, .inl rfl⟩
        simp [GameState.process_player_action, hc, hq]
      | express n =>
        refine ⟨sheet, ?_, m, hm, .inl rfl⟩
        simp [GameState.process_player_action, hc, hq]
      | freeRide =>
        refine ⟨sheet, ?_, m, hm, .inl rfl⟩
        simp [GameState.process_player_action, hc, hq]
    | chooseLine lid idx =>
      rcases hp : lookupA pid g.players with _ | player
      · refine ⟨sheet, ?_, m, hm, .inl rfl⟩
        simp [GameState.process_player_action, hc, hp, hq]
      · rcases hadd : player.add_card_to_line lid c with e | player1
        · refine ⟨sheet, ?_, m, hm, .inl rfl⟩
          simp [GameState.process_player_action, hc, hp, hadd, hq]
        · have hm1 : lookupA s player1.marked_stations = lookupA s player.marked_stations := by
            rw [add_card_to_line_marked _ _ _ _ hadd]
          rcases hmark : player1.mark_stations_from_line lid c map with e | ⟨stx, player2⟩
          · have hstate : (g.process_player_action pid (.chooseLine lid idx) map).2.players
                = insertA pid player1 g.players := by
              simp [GameState.process_player_action, hc, hp, hadd, hmark]
            by_cases hqp : pid = q
            · subst hqp
              have hps : player = sheet := Option.some_injective _ (hp.symm.trans hq)
              subst hps
              rw [hstate, lookupA_insertA_self]
              refine ⟨_, rfl, m, ?_, .inl rfl⟩
              rw [hm1]
              exact hm
            · rw [hstate, lookupA_insertA_ne _ _ hqp, hq]
              exact ⟨_, rfl, m, hm, .inl rfl⟩
          · rcases hcheck : player2.check_line_completion lid map with _ | ⟨b, player3⟩
            · have hstate : (g.process_player_action pid (.chooseLine lid idx) map).2.players
                  = insertA pid player2 g.players := by
                simp [GameState.process_player_action, hc, hp, hadd, hmark, hcheck]
              by_cases hqp : pid = q
              · subst hqp
                have hps : player = sheet := Option.some_injective _ (hp.symm.trans hq)
                subst hps
                rw [hstate, lookupA_insertA_self]
                refine ⟨_, rfl, m, ?_, .inl rfl⟩
                exact mark_stations_preserves_mark _ _ _ _ _ _ _ _ (hm1.symm ▸ hm) hmark
              · rw [hstate, lookupA_insertA_ne _ _ hqp, hq]
                exact ⟨_, rfl, m, hm, .inl rfl⟩
            · have hm3 : lookupA s player3.marked_stations = lookupA s player2.marked_stations := by
                rw [check_line_completion_marked _ _ _ _ _ hcheck]
              have hmain : ∀ p4 : PlayerSheet,
                  (g.process_player_action pid (.chooseLine lid idx) map).2.players
                      = insertA pid p4 g.players →
                  lookupA s p4.marked_stations = lookupA s player3.marked_stations →
                  ∃ sheet', lookupA q (g.process_player_action pid (.chooseLine lid idx) map).2.players = some sheet' ∧
                    ∃ m', lookupA s sheet'.marked_stations = some m' ∧
                      (m' = m ∨ PlayerAction.chooseLine lid idx = PlayerAction.markTransferStation s) := by
                intro p4 hstate hp4
                by_cases hqp : pid = q
                · subst hqp
                  have hps : player = sheet := Option.some_injective _ (hp.symm.trans hq)
                  subst hps
                  rw [hstate, lookupA_insertA_self]
                  refine ⟨_, rfl, m, ?_, .inl rfl⟩
                  rw [hp4, hm3]
                  exact mark_stations_preserves_mark _ _ _ _ _ _ _ _ (hm1.symm ▸ hm) hmark
                · rw [hstate, lookupA_insertA_ne _ _ hqp, hq]
                  exact ⟨_, rfl, m, hm, .inl rfl⟩
              cases b with
              | false =>
                exact hmain player3
                  (by simp [GameState.process_player_action, hc, hp, hadd, hmark, hcheck]) rfl
              | true =>
                rcases hlk : lookupA lid map.lines with _ | line
                · exact hmain player3
                    (by simp [GameState.process_player_action, hc, hp, hadd, hmark, hcheck, hlk]) rfl
                · exact hmain
                    (if !(g.players.any fun p => p.2.player_id != pid && p.2.completed_lines.contains lid) then { player3 with line_completion_status := insertA lid (CompletionStatus.firstToComplete line.completion_points.1) player3.line_completion_status } else { player3 with line_completion_status := insertA lid (CompletionStatus.laterCompletion line.completion_points.2) player3.line_completion_status })
                    (by simp [GameState.process_player_action, hc, hp, hadd, hmark, hcheck, hlk])
                    (by split <;> rfl)



theorem applyOp_mark_evolution (map : SubwayMap) (g : GameState) (o : Op) (q : Nat)
    (sheet : PlayerSheet) (s : String) (m : StationMark)
    (hq : lookupA q g.players = some sheet)
    (hm : lookupA s sheet.marked_stations = some m) :
    ∃ sheet', lookupA q (applyOp map g o).players = some sheet' ∧
      ∃ m', lookupA s sheet'.marked_stations = some m' ∧
        (m' = m ∨ ∃ p, o = .act p (.markTransferStation s)) := by
  cases o with
  | markFromLine pid lid card =>
    rcases hp : lookupA pid g.players with _ | player
    · refine ⟨sheet, ?_, m, hm, .inl rfl⟩
      simp [applyOp, hp, hq]
    · rcases hmark : player.mark_stations_from_line lid card map with e | ⟨stx, player'⟩
      · refine ⟨sheet, ?_, m, hm, .inl rfl⟩
        simp [applyOp, hp, hmark, hq]
      · have hstate : (applyOp map g (.markFromLine pid lid card)).players
            = insertA pid player' g.players := by
          simp [applyOp, hp, hmark]
        by_cases hqp : pid = q
        · subst hqp
          have hps : player = sheet := Option.some_injective _ (hp.symm.trans hq)
          subst hps
          rw [hstate, lookupA_insertA_self]
          refine ⟨_, rfl, m, ?_, .inl rfl⟩
          exact mark_stations_preserves_mark _ _ _ _ _ _ _ _ hm hmark
        · rw [hstate, lookupA_insertA_ne _ _ hqp, hq]
          exact ⟨_, rfl, m, hm, .inl rfl⟩
  | act pid action =>
    obtain ⟨sheet', h1, m', h2, h3⟩ :=
      process_action_mark_evolution g pid action map q sheet s m hq hm
    refine ⟨sheet', h1, m', h2, ?_⟩
    rcases h3 with h | h
    · exact .inl h
    · exact .inr ⟨pid, by rw [h]⟩

/-- Claim C1 (amended): under any operation sequence, a station once marked
stays present in `marked_stations`; its kind is unchanged provided no
MarkTransferStation action targeting that station occurs (such an action
overwrites the mark unconditionally — see the counterexample). -/
theorem marked_stations_monotone (map : SubwayMap) (ops : List Op) (g : GameState)
    (q : Nat) (s : String) (m : StationMark) (sheet : PlayerSheet)
    (hq : lookupA q g.players = some sheet)
    (hm : lookupA s sheet.marked_stations = some m) :
    ∃ sheet' m', lookupA q (applyOps map g ops).players = some sheet' ∧
      lookupA s sheet'.marked_stations = some m' ∧
      ((∀ p, Op.act p (.markTransferStation s) ∉ ops) → m' = m) := by
  induction ops generalizing g sheet m with
  | nil => exact ⟨sheet, m, hq, hm, fun _ => rfl⟩
  | cons o rest ih =>
    obtain ⟨sheet1, h1, m1, h2, h3⟩ := applyOp_mark_evolution map g o q sheet s m hq hm
    obtain ⟨sheet', m', h1', h2', h3'⟩ := ih (applyOp map g o) m1 sheet1 h1 h2
    refine ⟨sheet', m', h1', h2', ?_⟩
    intro hno
    have hnorest : ∀ p, Op.act p (.markTransferStation s) ∉ rest :=
      fun p hp => hno p (List.mem_cons_of_mem _ hp)
    have hm1 : m1 = m := by
      rcases h3 with h | ⟨p, hp⟩
      · exact h
      · exact absurd (hp ▸ List.mem_cons_self o rest) (hp ▸ hno p)
    rw [h3' hnorest]
    exact hm1

/-- Witness for C1's amended claim: the Cross on station "a" survives a
CompleteLineAnnouncement dispatch unchanged. -/
theorem marked_stations_monotone_witness :
    ∃ sheet' m',
      lookupA 0 (applyOps exampleMap transferGame
        [.act 0 (.completeLineAnnouncement "l1")]).players = some sheet' ∧
      lookupA "a" sheet'.marked_stations = some m' ∧
      ((∀ p, Op.act p (.markTransferStation "a")
          ∉ [Op.act 0 (.completeLineAnnouncement "l1")]) → m' = .cross) :=
  marked_stations_monotone exampleMap [.act 0 (.completeLineAnnouncement "l1")]
    transferGame 0 "a" .cross crossSheet rfl rfl

end Verplant
